import Mathlib

/-!
Shallow embedding of the QDMboxSearch repository (src/mbox_search.py and
src/mbox_search_gui.py) and verification of its specification claims.

Python strings are modelled as Lean `String` (field text) or `List Char`
(byte/character sequences); Python exceptions raised by external decoders
are modelled by `Option` results; `datetime` values are modelled abstractly
as `Int` timestamps.
-/

/-- Mirrors the `EmailMessage` dataclass of both source files:
`message_id`, `subject`, `from_addr` are header strings, `date` is the
parsed timestamp (absent on missing or unparsable Date header), `body`
is the extracted body text. -/
structure EmailMessage where
  message_id : String
  subject : String
  from_addr : String
  date : Option Int
  body : String
deriving DecidableEq

/-- Python `str.lower()` on a character sequence. -/
def lowerChars (s : List Char) : List Char := s.map Char.toLower

/-- Python `str.startswith`: `startsWithChars p s` is true when `p` is an
initial segment of `s`. -/
def startsWithChars : List Char → List Char → Bool
  | [], _ => true
  | _ :: _, [] => false
  | p :: ps, c :: cs => p == c && startsWithChars ps cs

/-- Python substring containment `pat in s`: true when `pat` occurs
contiguously somewhere in `s`. -/
def occursIn (pat : List Char) : List Char → Bool
  | [] => startsWithChars pat []
  | c :: rest => startsWithChars pat (c :: rest) || occursIn pat rest

/-- Declarative substring relation: `q` occurs contiguously in `s`. -/
def SubstringOf (q s : List Char) : Prop := ∃ l r, s = l ++ q ++ r

/-- The per-record match test of `MBoxSearcher.search`
(src/mbox_search.py lines 130-137): the `match` flag ends up true exactly
when an enabled field contains the (already lowercased) query. -/
def messageMatches (query : List Char) (ss sb : Bool) (m : EmailMessage) : Bool :=
  (ss && occursIn query (lowerChars m.subject.data)) ||
  (sb && occursIn query (lowerChars m.body.data))

/-- `MBoxSearcher.search` (src/mbox_search.py lines 115-141): lowercase the
query once, then keep, in order, the messages whose enabled fields contain
it. -/
def search (msgs : List EmailMessage) (query : String) (ss sb : Bool) :
    List EmailMessage :=
  msgs.filter (messageMatches (lowerChars query.data) ss sb)

/-- `MainWindow.search` (src/mbox_search_gui.py lines 346-365): the combo
box value `searchType` ("Subject", "Body" or "Both") plays the role of the
two boolean flags. -/
def searchGui (msgs : List EmailMessage) (query : String) (searchType : String) :
    List EmailMessage :=
  msgs.filter (fun m =>
    ((searchType == "Subject" || searchType == "Both") &&
      occursIn (lowerChars query.data) (lowerChars m.subject.data)) ||
    ((searchType == "Body" || searchType == "Both") &&
      occursIn (lowerChars query.data) (lowerChars m.body.data)))

theorem startsWithChars_iff (p : List Char) :
    ∀ s, startsWithChars p s = true ↔ ∃ r, s = p ++ r := by
  induction p with
  | nil =>
    intro s
    simp [startsWithChars]
  | cons p ps ih =>
    intro s
    cases s with
    | nil =>
      simp [startsWithChars]
    | cons c cs =>
      simp only [startsWithChars, Bool.and_eq_true, beq_iff_eq, ih,
        List.cons_append, List.cons.injEq]
      constructor
      · rintro ⟨hpc, r, hr⟩
        exact ⟨r, hpc.symm, hr⟩
      · rintro ⟨r, hcp, hr⟩
        exact ⟨hcp.symm, r, hr⟩

theorem occursIn_iff (q : List Char) :
    ∀ s, occursIn q s = true ↔ SubstringOf q s := by
  intro s
  induction s with
  | nil =>
    simp only [occursIn, startsWithChars_iff, SubstringOf]
    constructor
    · rintro ⟨r, hr⟩
      exact ⟨[], r, by simpa using hr⟩
    · rintro ⟨l, r, hr⟩
      have h0 : l ++ q ++ r = [] := hr.symm
      rw [List.append_assoc] at h0
      obtain ⟨hl, hqr⟩ := List.append_eq_nil.mp h0
      exact ⟨r, hqr.symm⟩
  | cons c cs ih =>
    simp only [occursIn, Bool.or_eq_true, startsWithChars_iff, ih, SubstringOf]
    constructor
    · rintro (⟨r, hr⟩ | ⟨l, r, hr⟩)
      · exact ⟨[], r, by simpa using hr⟩
      · exact ⟨c :: l, r, by simp [hr]⟩
    · rintro ⟨l, r, hr⟩
      cases l with
      | nil =>
        exact Or.inl ⟨r, by simpa using hr⟩
      | cons x xs =>
        rw [List.cons_append, List.cons_append] at hr
        obtain ⟨hcx, hcs⟩ := List.cons.inj hr
        exact Or.inr ⟨xs, r, hcs⟩

/-- The GUI search is the two-flag search with the combo box value decoded
into the flag pair. -/
theorem searchGui_eq_search (msgs : List EmailMessage) (q t : String) :
    searchGui msgs q t =
      search msgs q (t == "Subject" || t == "Both") (t == "Body" || t == "Both") := rfl

/-- Claim C1: a record is in the search result exactly when it is one of the
input records and at least one enabled field (subject under `ss`, body under
`sb`) contains the lowercased query as a substring of the lowercased field
text; a record with no enabled matching field is excluded. -/
theorem search_matches_iff (msgs : List EmailMessage) (q : String) (ss sb : Bool)
    (m : EmailMessage) :
    m ∈ search msgs q ss sb ↔
      m ∈ msgs ∧
        ((ss = true ∧ SubstringOf (lowerChars q.data) (lowerChars m.subject.data)) ∨
         (sb = true ∧ SubstringOf (lowerChars q.data) (lowerChars m.body.data))) := by
  unfold search messageMatches
  rw [List.mem_filter]
  simp only [Bool.or_eq_true, Bool.and_eq_true, occursIn_iff]

/-- Claim C4: the search result is a subsequence of the input list — records
are kept in input order, never reordered, ranked or weighted. -/
theorem search_sublist_input (msgs : List EmailMessage) (q : String) (ss sb : Bool) :
    List.Sublist (search msgs q ss sb) msgs :=
  List.filter_sublist msgs

/-- Every field contains the empty character sequence. -/
theorem occursIn_nil (s : List Char) : occursIn [] s = true := by
  induction s with
  | nil => rfl
  | cons c cs ih => simp [occursIn, startsWithChars, ih]

/-- Claim C8: searching with the empty query while at least one field flag is
enabled returns every record of the sequence. -/
theorem empty_query_returns_all (msgs : List EmailMessage) (ss sb : Bool)
    (h : (ss || sb) = true) :
    search msgs "" ss sb = msgs := by
  unfold search
  apply List.filter_eq_self.mpr
  intro m hm
  unfold messageMatches
  have hq : lowerChars ("".data) = [] := rfl
  rw [hq, occursIn_nil, occursIn_nil]
  cases ss <;> cases sb <;> simp_all

def exampleMessage : EmailMessage :=
  { message_id := "<1@example>", subject := "Quarterly Report",
    from_addr := "alice@example.com", date := none, body := "hello world" }

def exampleMessages : List EmailMessage := [exampleMessage]

/-- Witness for claim C8 at a concrete record list with only the subject
flag enabled. -/
theorem empty_query_returns_all_witness :
    (true || false) = true ∧ search exampleMessages "" true false = exampleMessages :=
  ⟨rfl, empty_query_returns_all exampleMessages true false rfl⟩

/-- Claim C10: search results are monotone in the field flags — the
subject-only and body-only result lists are subsequences of the both-flags
result list. -/
theorem search_flag_monotone (msgs : List EmailMessage) (q : String) :
    List.Sublist (search msgs q true false) (search msgs q true true) ∧
    List.Sublist (search msgs q false true) (search msgs q true true) := by
  constructor
  · apply List.monotone_filter_right
    intro m hm
    simp only [messageMatches, Bool.true_and, Bool.false_and, Bool.or_false] at hm
    simp [messageMatches, hm]
  · apply List.monotone_filter_right
    intro m hm
    simp only [messageMatches, Bool.true_and, Bool.false_and, Bool.false_or] at hm
    simp [messageMatches, hm]

/-- One MIME part of a multi-part message: its content type and the result of
`part.get_payload(decode=True).decode()` — `some` on success, `none` when the
decode raises. -/
structure MimePart where
  ctype : String
  decoded : Option String
deriving DecidableEq

/-- The payload of one message: either a single part (content type, decode
result, raw undecoded payload used as fallback) or a list of parts as
yielded by `message.walk()`. -/
inductive Payload where
  | single : String → Option String → String → Payload
  | multi : List MimePart → Payload
deriving DecidableEq

/-- One message as handed over by the `mailbox` library: the headers read by
the loaders (`message.get(...)` with empty-string default, so a missing
header is the empty string) plus the payload. -/
structure RawMessage where
  messageId : String
  subject : String
  fromAddr : String
  dateHeader : String
  payload : Payload
deriving DecidableEq

/-- The date handling of both loaders (src/mbox_search.py lines 66-73,
src/mbox_search_gui.py lines 78-85): an empty/missing Date header yields
`none`; otherwise `parsedate_to_datetime` is tried, with any raised
exception (modelled as a `none` result of `pd`) mapped to `none`. -/
def parseDateField (pd : String → Option Int) (dh : String) : Option Int :=
  if dh = "" then none else pd dh

/-- The body accumulation step of `MBoxSearcher._get_message_body`
(src/mbox_search.py lines 101-107): a text/plain part whose decode succeeds
is appended; a failing decode hits `continue`; other content types are
ignored. -/
def plainStep (body : String) (p : MimePart) : String :=
  if p.ctype == "text/plain" then
    match p.decoded with
    | some s => body ++ s
    | none => body
  else body

/-- `MBoxSearcher._get_message_body` (src/mbox_search.py lines 90-113):
multi-part messages accumulate text/plain parts; a single-part message uses
its decoded payload, falling back to the raw payload when decoding raises. -/
def getMessageBody : Payload → String
  | .multi parts => parts.foldl plainStep ""
  | .single _ decoded raw =>
    match decoded with
    | some s => s
    | none => raw

/-- The body accumulation step of `MBoxLoader.run`
(src/mbox_search_gui.py lines 91-102): the pair accumulates `(body,
html_body)`; text/plain parts extend the first component, text/html parts
the second; failing decodes hit `continue`. -/
def guiStep (acc : String × String) (p : MimePart) : String × String :=
  if p.ctype == "text/plain" then
    match p.decoded with
    | some s => (acc.1 ++ s, acc.2)
    | none => acc
  else if p.ctype == "text/html" then
    match p.decoded with
    | some s => (acc.1, acc.2 ++ s)
    | none => acc
  else acc

/-- Body extraction of `MBoxLoader.run` (src/mbox_search_gui.py lines
87-117): multi-part messages accumulate plain and HTML text separately; a
single part lands in `html_body` when its content type is text/html and in
`body` otherwise, with the raw payload as fallback on decode failure; the
record's body is `html_body if html_body else body`. -/
def guiBodyOf : Payload → String
  | .multi parts =>
    let bh := parts.foldl guiStep ("", "")
    if bh.2 == "" then bh.1 else bh.2
  | .single ctype decoded raw =>
    let bh : String × String :=
      match decoded with
      | some s => if ctype == "text/html" then ("", s) else (s, "")
      | none => (raw, "")
    if bh.2 == "" then bh.1 else bh.2

/-- Record construction of `MBoxSearcher.load_mbox`
(src/mbox_search.py lines 65-81) for one message. -/
def loadMessage (pd : String → Option Int) (m : RawMessage) : EmailMessage :=
  { message_id := m.messageId, subject := m.subject, from_addr := m.fromAddr,
    date := parseDateField pd m.dateHeader, body := getMessageBody m.payload }

/-- Record construction of `MBoxLoader.run`
(src/mbox_search_gui.py lines 77-119) for one message. -/
def loadMessageGui (pd : String → Option Int) (m : RawMessage) : EmailMessage :=
  { message_id := m.messageId, subject := m.subject, from_addr := m.fromAddr,
    date := parseDateField pd m.dateHeader, body := guiBodyOf m.payload }

/-- The message loop of `MBoxSearcher.load_mbox`: every message of the
mailbox yields one record, in file order. -/
def loadAll (pd : String → Option Int) (msgs : List RawMessage) : List EmailMessage :=
  msgs.map (loadMessage pd)

/-- The message loop of `MBoxLoader.run`: every message of the mailbox
yields one record, in file order. -/
def loadAllGui (pd : String → Option Int) (msgs : List RawMessage) : List EmailMessage :=
  msgs.map (loadMessageGui pd)

/-- `MBoxSearcher.load_mbox` entry (src/mbox_search.py lines 48-84): the
file system is modelled as a partial map from paths to parsed message lists;
a missing path fails with the printed error before any parsing, otherwise
the message loop runs. -/
def loadMbox (fs : String → Option (List RawMessage)) (pd : String → Option Int)
    (path : String) : Except String (List EmailMessage) :=
  match fs path with
  | none => Except.error ("Error: File " ++ path ++ " does not exist")
  | some msgs => Except.ok (loadAll pd msgs)

/-- `MBoxLoader.run` entry (src/mbox_search_gui.py lines 49-128): opening a
missing path raises, the outer handler emits the error signal and no record
batch is produced. -/
def runLoader (fs : String → Option (List RawMessage)) (pd : String → Option Int)
    (path : String) : Except String (List EmailMessage) :=
  match fs path with
  | none => Except.error "No such file or directory"
  | some msgs => Except.ok (loadAllGui pd msgs)

/-- Claim C6: when a message's Date header is missing (empty) or its parse
fails, the record's timestamp is absent, in both loader variants, and the
batch still yields one record per message. -/
theorem date_parse_failure_absent (pd : String → Option Int) (m : RawMessage)
    (msgs : List RawMessage)
    (h : m.dateHeader = "" ∨ pd m.dateHeader = none) :
    (loadMessage pd m).date = none ∧ (loadMessageGui pd m).date = none ∧
    (loadAll pd msgs).length = msgs.length ∧
    (loadAllGui pd msgs).length = msgs.length := by
  have hd : parseDateField pd m.dateHeader = none := by
    rcases h with h | h
    · simp [parseDateField, h]
    · by_cases he : m.dateHeader = "" <;> simp [parseDateField, he, h]
  exact ⟨hd, hd, List.length_map msgs _, List.length_map msgs _⟩

def badDateMessage : RawMessage :=
  { messageId := "<2@example>", subject := "hello", fromAddr := "bob@example.com",
    dateHeader := "not a real date", payload := .single "text/plain" (some "hi") "hi" }

/-- A date parser that fails on every header, modelling a
`parsedate_to_datetime` call that raises. -/
def failingDateParse : String → Option Int := fun _ => none

/-- Witness for claim C6 at a concrete message whose Date header fails to
parse. -/
theorem date_parse_failure_absent_witness :
    (badDateMessage.dateHeader = "" ∨ failingDateParse badDateMessage.dateHeader = none) ∧
    (loadMessage failingDateParse badDateMessage).date = none ∧
    (loadMessageGui failingDateParse badDateMessage).date = none ∧
    (loadAll failingDateParse [badDateMessage]).length = [badDateMessage].length ∧
    (loadAllGui failingDateParse [badDateMessage]).length = [badDateMessage].length :=
  ⟨Or.inr rfl,
   date_parse_failure_absent failingDateParse badDateMessage [badDateMessage] (Or.inr rfl)⟩

/-- Claim C9: loading a path that does not exist fails with the
file-not-found condition in both variants and produces no records. -/
theorem missing_path_errors (fs : String → Option (List RawMessage))
    (pd : String → Option Int) (path : String) (h : fs path = none) :
    loadMbox fs pd path = Except.error ("Error: File " ++ path ++ " does not exist") ∧
    runLoader fs pd path = Except.error "No such file or directory" := by
  simp [loadMbox, runLoader, h]

/-- An empty file system: no path exists. -/
def emptyFileSystem : String → Option (List RawMessage) := fun _ => none

/-- Witness for claim C9 at a concrete missing path. -/
theorem missing_path_errors_witness :
    emptyFileSystem "/tmp/absent.mbox" = none ∧
    loadMbox emptyFileSystem failingDateParse "/tmp/absent.mbox" =
      Except.error ("Error: File " ++ "/tmp/absent.mbox" ++ " does not exist") ∧
    runLoader emptyFileSystem failingDateParse "/tmp/absent.mbox" =
      Except.error "No such file or directory" :=
  ⟨rfl, missing_path_errors emptyFileSystem failingDateParse "/tmp/absent.mbox" rfl⟩

/-- The decoded texts of the text/plain parts, in part order; parts whose
decode fails, and parts of any other content type, are dropped. -/
def plainTexts (parts : List MimePart) : List String :=
  parts.filterMap (fun p => if p.ctype == "text/plain" then p.decoded else none)

/-- The decoded texts of the text/html parts, in part order; parts whose
decode fails, and parts of any other content type, are dropped. -/
def htmlTexts (parts : List MimePart) : List String :=
  parts.filterMap (fun p => if p.ctype == "text/html" then p.decoded else none)

/-- Concatenation of a list of strings. -/
def concatStrings : List String → String
  | [] => ""
  | s :: rest => s ++ concatStrings rest

theorem foldl_plainStep (parts : List MimePart) :
    ∀ acc : String, parts.foldl plainStep acc = acc ++ concatStrings (plainTexts parts) := by
  induction parts with
  | nil =>
    intro acc
    simp [plainTexts, concatStrings]
  | cons p ps ih =>
    intro acc
    by_cases hc : p.ctype = "text/plain"
    · cases hd : p.decoded with
      | some s =>
        simp [plainStep, plainTexts, List.filterMap_cons, concatStrings, hc, hd, ih,
          String.append_assoc]
      | none =>
        simp [plainStep, plainTexts, List.filterMap_cons, concatStrings, hc, hd, ih]
    · simp [plainStep, plainTexts, List.filterMap_cons, concatStrings, hc, ih]

/-- Claim C7: for a multi-part message, the plain-text loader's body is the
concatenation, in part order, of the decoded texts of exactly the text/plain
parts; failing parts and non-plain parts (attachments) contribute nothing,
and body extraction is total, so neither the message nor the load aborts. -/
theorem plain_body_concat_of_parts (parts : List MimePart) :
    getMessageBody (Payload.multi parts) = concatStrings (plainTexts parts) := by
  have h := foldl_plainStep parts ""
  simpa [getMessageBody] using h

theorem foldl_guiStep (parts : List MimePart) :
    ∀ acc : String × String,
      parts.foldl guiStep acc =
        (acc.1 ++ concatStrings (plainTexts parts),
         acc.2 ++ concatStrings (htmlTexts parts)) := by
  induction parts with
  | nil =>
    intro acc
    simp [plainTexts, htmlTexts, concatStrings]
  | cons p ps ih =>
    intro acc
    by_cases hc : p.ctype = "text/plain"
    · have hh : ¬p.ctype = "text/html" := by simp [hc]
      cases hd : p.decoded with
      | some s =>
        simp [guiStep, plainTexts, htmlTexts, List.filterMap_cons, concatStrings,
          hc, hh, hd, ih, String.append_assoc]
      | none =>
        simp [guiStep, plainTexts, htmlTexts, List.filterMap_cons, concatStrings,
          hc, hh, hd, ih]
    · by_cases hh : p.ctype = "text/html"
      · cases hd : p.decoded with
        | some s =>
          simp [guiStep, plainTexts, htmlTexts, List.filterMap_cons, concatStrings,
            hc, hh, hd, ih, String.append_assoc]
        | none =>
          simp [guiStep, plainTexts, htmlTexts, List.filterMap_cons, concatStrings,
            hc, hh, hd, ih]
      · simp [guiStep, plainTexts, htmlTexts, List.filterMap_cons, concatStrings,
          hc, hh, ih]

/-- Claim C5 (amended): for a multi-part message, the HTML-rendering loader
sets the body to the concatenation of the decoded text/html parts whenever
that concatenation is nonempty — HTML is preferred over plain text when both
exist — and to the concatenation of the decoded text/plain parts only when
the HTML concatenation is empty. -/
theorem gui_body_html_over_plain (parts : List MimePart) :
    guiBodyOf (Payload.multi parts) =
      if concatStrings (htmlTexts parts) == "" then concatStrings (plainTexts parts)
      else concatStrings (htmlTexts parts) := by
  simp [guiBodyOf, foldl_guiStep]

/-- A multi-part payload holding one decodable plain-text part and one
decodable HTML part. -/
def mixedParts : List MimePart :=
  [{ ctype := "text/plain", decoded := some "Hello" },
   { ctype := "text/html", decoded := some "<p>Hi</p>" }]

/-- Counterexample to claim C5 as stated: this multi-part message has a
usable plain-text part ("Hello"), yet the HTML-rendering loader's body is
the HTML part, not the plain-text concatenation — HTML is not reserved for
the no-plain-text case. -/
theorem gui_body_prefers_html_cex :
    plainTexts mixedParts = ["Hello"] ∧
    guiBodyOf (Payload.multi mixedParts) = "<p>Hi</p>" ∧
    guiBodyOf (Payload.multi mixedParts) ≠ concatStrings (plainTexts mixedParts) := by
  refine ⟨rfl, rfl, ?_⟩
  decide

/-- Python `chunk.count(pat)` for a nonempty pattern: the number of
positions at which `pat` occurs in `s`. Python counts non-overlapping
occurrences left to right; the only pattern counted here, `"\nFrom "`, has
no proper prefix equal to one of its suffixes, so its occurrences can never
overlap and position counting agrees with Python's count. -/
def countSub (pat : List Char) : List Char → Nat
  | [] => 0
  | c :: rest => (if startsWithChars pat (c :: rest) then 1 else 0) + countSub pat rest

/-- The fixed read size of the pre-scan loop in `MBoxLoader.run`
(src/mbox_search_gui.py line 56): 1 MiB. -/
def chunkSize : Nat := 1024 * 1024

/-- The number of nonempty chunks `f.read(chunk_size)` yields for a file of
`len` bytes. -/
def chunkCount (len : Nat) : Nat := (len + chunkSize - 1) / chunkSize

/-- The successive chunks the pre-scan loop reads from the file
(src/mbox_search_gui.py lines 58-62). -/
def chunksOf (file : List Char) : List (List Char) :=
  (List.range (chunkCount file.length)).map
    (fun i => (file.drop (i * chunkSize)).take chunkSize)

/-- The pre-scan message count of `MBoxLoader.run` (src/mbox_search_gui.py
lines 53-68): the occurrences of the separator pattern `"\nFrom "` are
counted chunk by chunk and summed. -/
def scanMessageCount (file : List Char) : Nat :=
  ((chunksOf file).map (fun chunk => countSub ("\nFrom ".data) chunk)).sum

/-- The number of messages `mailbox.mbox` yields for a file: its table of
contents starts one message at every line that begins with `"From "`
(including the first line of the file), so the loader's message loop
produces exactly this many records, in file order. -/
def numRecords (file : List Char) : Nat :=
  ((file.splitOn '\n').filter (fun line => startsWithChars ("From ".data) line)).length

/-- The progress values emitted during the pre-scan phase
(src/mbox_search_gui.py lines 63-68): after each chunk,
`int((bytes_processed / file_size) * 50)`, here in exact integer
arithmetic. -/
def scanEmissions (file : List Char) : List Nat :=
  (List.range (chunkCount file.length)).map
    (fun i => min ((i + 1) * chunkSize) file.length * 50 / file.length)

/-- The progress values emitted during the message-loading phase
(src/mbox_search_gui.py lines 120-123): after message `j + 1` of `total`,
`50 + int((current_message / message_count) * 50)`, here in exact integer
arithmetic. (When `messageCount` is zero and `total` is not, the Python
code raises `ZeroDivisionError` instead; Lean's division by zero yields
zero there.) -/
def loadEmissions (messageCount total : Nat) : List Nat :=
  (List.range total).map (fun j => 50 + (j + 1) * 50 / messageCount)

/-- Every progress value one load emits, in emission order: the pre-scan
values followed by the load-phase values, which divide by the pre-scanned
message count. -/
def allEmissions (file : List Char) : List Nat :=
  scanEmissions file ++ loadEmissions (scanMessageCount file) (numRecords file)

/-- A valid one-message mbox file. Its single `"From "` separator sits at
offset 0, so it is not preceded by a newline. -/
def oneMessageMbox : List Char := "From a\nSubject: hi\n\nhello\n".data

/-- A valid two-message mbox file. -/
def twoMessageMbox : List Char := "From a\n\nFrom b\n".data

/-- Claim C2 fails on the code: for a one-message mbox file the loader
yields one record while the pre-scan, which counts `"\nFrom "` occurrences,
finds zero boundaries (the first message's `"From "` at offset 0 is not
preceded by a newline), so the two counts differ. -/
theorem prescan_count_mismatch :
    numRecords oneMessageMbox = 1 ∧
    scanMessageCount oneMessageMbox = 0 ∧
    numRecords oneMessageMbox ≠ scanMessageCount oneMessageMbox := by
  refine ⟨?_, ?_, ?_⟩ <;> decide

/-- Claim C3 fails on the code: for a two-message mbox file the pre-scan
counts one boundary, so after the second message the load phase emits
`50 + int((2 / 1) * 50) = 150`, a progress value above 100. -/
theorem progress_exceeds_hundred :
    allEmissions twoMessageMbox = [50, 100, 150] ∧
    150 ∈ allEmissions twoMessageMbox ∧ ¬150 ≤ 100 := by
  refine ⟨?_, ?_, ?_⟩ <;> decide
